import Mathlib

/-!
Verification of the GeoGuess python-service core against its specification.

The development shallowly embeds the algorithmic core of
`src/python-service/app/geo.py` and `src/python-service/app/streetview.py`:

* the rejection point sampler `random_point_in_polygon`;
* the cache-key normalisation `_city_cache_key`;
* the sub-area discovery pipeline of `fetch_city_geojson` (per-keyword
  filtering, global deduplication, area-descending ranking, top-500 cap);
* the on-disk candidate cache (`save_city_small_polygons_cache`,
  `load_city_small_polygons_cache`, `load_all_city_caches_from_dir`);
* the boundary resolver `_fetch_city_full_geojson`;
* the coverage search loop `find_streetview_random` together with
  `is_metadata_acceptable`.

Network responses, random draws and shapely geometry predicates are inputs of
the embedded functions: a response list, a point stream, a containment test.
The embedding models exactly the control flow the Python code performs on
those inputs.
-/

/-! ## Point sampler (`app/geo.py`, `random_point_in_polygon`, lines 56-74) -/

/-- A sampled planar point, as produced by `_random_point_in_bounds`.
Coordinates are stored shapely-style as (x, y); the sampler returns (y, x). -/
structure SPoint where
  x : Rat
  y : Rat
deriving DecidableEq

/-- The retry loop body of `random_point_in_polygon` (geo.py lines 61-73).
`contains` embeds `shape.contains`, `gen i` the i-th draw of
`_random_point_in_bounds`, `centerBias` the truthiness of the `center_bias`
argument and `biasAccept i` the outcome of the Gaussian-kernel acceptance
test `random.random() <= accept_p` at attempt `i`.  The first argument of
the recursion is the remaining number of tries, the second the index of the
next draw.  `none` models falling through the loop into the final
`raise RuntimeError` (SamplingExhausted). -/
def sampleLoop (contains : SPoint → Bool) (centerBias : Bool) (biasAccept : Nat → Bool)
    (gen : Nat → SPoint) : Nat → Nat → Option SPoint
  | 0, _ => none
  | n + 1, i =>
    let pt := gen i
    if !(contains pt) then sampleLoop contains centerBias biasAccept gen n (i + 1)
    else if centerBias && !(biasAccept i) then sampleLoop contains centerBias biasAccept gen n (i + 1)
    else some pt

/-- `random_point_in_polygon` (geo.py lines 56-74): run the rejection loop for
`maxTries` attempts; a surviving point `pt` is returned as `(pt.y, pt.x)`,
exhaustion is the `RuntimeError` modelled as `none`. -/
def random_point_in_polygon (contains : SPoint → Bool) (gen : Nat → SPoint)
    (centerBias : Bool) (biasAccept : Nat → Bool) (maxTries : Nat) : Option (Rat × Rat) :=
  (sampleLoop contains centerBias biasAccept gen maxTries 0).map (fun pt => (pt.y, pt.x))

/-- Shapely `contains` on the open unit square [0,1]x[0,1] (interior only,
as `shapely .contains` excludes the boundary). -/
def unit_square_contains (p : SPoint) : Bool :=
  decide (0 < p.x ∧ p.x < 1 ∧ 0 < p.y ∧ p.y < 1)

/-- A deterministic point generator that always produces a point outside the
unit square. -/
def always_outside_gen (_ : Nat) : SPoint :=
  { x := 2, y := 2 }

/-! ## Cache key normalisation (`app/geo.py`, `_city_cache_key`, lines 81-84) -/

/-- Python `str.strip()` whitespace test (ASCII fragment: space and the
control characters 9-13). -/
def pyIsSpace (c : Char) : Bool :=
  c = ' ' || (9 ≤ c.toNat && c.toNat ≤ 13)

/-- Python `str.lower()` on one character (ASCII fragment). -/
def pyLowerChar (c : Char) : Char :=
  if 65 ≤ c.toNat && c.toNat ≤ 90 then Char.ofNat (c.toNat + 32) else c

/-- Python `str.strip()`: drop leading and trailing whitespace. -/
def pyStrip (s : List Char) : List Char :=
  ((s.dropWhile pyIsSpace).reverse.dropWhile pyIsSpace).reverse

/-- Python `str.lower()` over a whole string. -/
def pyLower (s : List Char) : List Char :=
  s.map pyLowerChar

/-- The `city.strip().lower()` normalisation applied to each key component. -/
def normalize_key_component (s : List Char) : List Char :=
  pyLower (pyStrip s)

/-- `_city_cache_key` (geo.py lines 81-84): lower-cased stripped city, with
the lower-cased stripped country appended after a comma only when the latter
is non-empty (Python truthiness of `country_key`; `country or ""` maps a
missing country to the empty string). -/
def city_cache_key (city : String) (country : Option String) : String :=
  let cityKey := String.mk (pyLower (pyStrip city.data))
  let countryKey := String.mk (pyLower (pyStrip (country.getD "").data))
  if countryKey ≠ "" then cityKey ++ "," ++ countryKey else cityKey

/-! ## Theorems for the point sampler and the cache key -/

theorem sampleLoop_contains_of_some (contains : SPoint → Bool) (centerBias : Bool)
    (biasAccept : Nat → Bool) (gen : Nat → SPoint) :
    ∀ n i p, sampleLoop contains centerBias biasAccept gen n i = some p → contains p = true := by
  intro n
  induction n with
  | zero => intro i p h; simp [sampleLoop] at h
  | succ m ih =>
    intro i p h
    simp only [sampleLoop] at h
    split at h
    · exact ih (i + 1) p h
    · split at h
      · exact ih (i + 1) p h
      · rename_i hc _
        rw [Option.some.injEq] at h
        subst h
        simpa using hc

/-- C1: for every containment test, point stream, bias configuration and
attempt budget n >= 1, `random_point_in_polygon` either returns `(p.y, p.x)`
for some point `p` accepted by the containment test, or exhausts all attempts
and fails (modelled `none`, the `RuntimeError`); it never returns a point
outside the geometry and never returns a degraded default.  Moreover, on the
unit square with `maxTries = 1` and an always-outside generator it fails with
SamplingExhausted. -/
theorem random_point_in_polygon_spec (contains : SPoint → Bool) (gen : Nat → SPoint)
    (centerBias : Bool) (biasAccept : Nat → Bool) (n : Nat) (h : 1 ≤ n) :
    ((∃ p : SPoint, contains p = true ∧
        random_point_in_polygon contains gen centerBias biasAccept n = some (p.y, p.x)) ∨
      random_point_in_polygon contains gen centerBias biasAccept n = none)
    ∧ random_point_in_polygon unit_square_contains always_outside_gen false biasAccept 1 = none := by
  constructor
  · rcases hr : sampleLoop contains centerBias biasAccept gen n 0 with _ | p
    · right
      simp [random_point_in_polygon, hr]
    · left
      exact ⟨p, sampleLoop_contains_of_some contains centerBias biasAccept gen n 0 p hr,
        by simp [random_point_in_polygon, hr]⟩
  · rfl

theorem random_point_in_polygon_spec_witness :
    1 ≤ 1
    ∧ (((∃ p : SPoint, unit_square_contains p = true ∧
          random_point_in_polygon unit_square_contains always_outside_gen false
            (fun _ => true) 1 = some (p.y, p.x)) ∨
        random_point_in_polygon unit_square_contains always_outside_gen false
          (fun _ => true) 1 = none)
      ∧ random_point_in_polygon unit_square_contains always_outside_gen false
          (fun _ => true) 1 = none) :=
  ⟨by decide, random_point_in_polygon_spec unit_square_contains always_outside_gen false
    (fun _ => true) 1 (by decide)⟩

/-- C9: the place key is the lower-cased trimmed city, with the lower-cased
trimmed country appended after the comma separator only when the trimmed
country is non-empty; any two requests whose components agree after trimming
and lower-casing produce the same key, and in particular
`PlaceKey(" Paris ", "FRANCE") = PlaceKey("paris", "france")`. -/
theorem city_cache_key_spec (city country : String) :
    (city_cache_key city none = String.mk (normalize_key_component city.data))
    ∧ (normalize_key_component country.data = [] →
        city_cache_key city (some country) = String.mk (normalize_key_component city.data))
    ∧ (normalize_key_component country.data ≠ [] →
        city_cache_key city (some country) =
          String.mk (normalize_key_component city.data) ++ "," ++
            String.mk (normalize_key_component country.data))
    ∧ (∀ city2 country2 : String,
        normalize_key_component city.data = normalize_key_component city2.data →
        normalize_key_component country.data = normalize_key_component country2.data →
        city_cache_key city (some country) = city_cache_key city2 (some country2))
    ∧ city_cache_key " Paris " (some "FRANCE") = city_cache_key "paris" (some "france") := by
  have h0 : pyLower (pyStrip (String.data "")) = [] := rfl
  refine ⟨?_, ?_, ?_, ?_, ?_⟩
  · simp [city_cache_key, normalize_key_component, h0]
  · intro h
    simp only [normalize_key_component] at h
    simp [city_cache_key, Option.getD, h, normalize_key_component]
  · intro h
    simp only [normalize_key_component] at h
    have hne : String.mk (pyLower (pyStrip country.data)) ≠ "" := by
      intro hcontra
      exact h (by simpa [String.ext_iff] using hcontra)
    simp [city_cache_key, Option.getD, hne, normalize_key_component]
  · intro city2 country2 h1 h2
    simp only [normalize_key_component] at h1 h2
    simp [city_cache_key, Option.getD, h1, h2]
  · decide

theorem city_cache_key_spec_witness :
    normalize_key_component (String.data "FRANCE") ≠ []
    ∧ city_cache_key " Paris " (some "FRANCE") =
        String.mk (normalize_key_component (String.data " Paris ")) ++ "," ++
          String.mk (normalize_key_component (String.data "FRANCE"))
    ∧ city_cache_key " Paris " (some "FRANCE") = city_cache_key "paris" (some "france") :=
  ⟨by decide, (city_cache_key_spec " Paris " "FRANCE").2.2.1 (by decide),
    (city_cache_key_spec " Paris " "FRANCE").2.2.2.2⟩

/-! ## Sub-area discovery (`app/geo.py`, `fetch_city_geojson`, lines 87-227)

The embedding covers the cache-miss discovery path: the per-keyword worker
`_fetch_for_syn` (lines 125-173), the merge/deduplication loop over completed
futures (lines 180-206) and the final ranking/truncation (lines 221-227).
Network responses are inputs: one optional item list per keyword query
(`none` models a `requests.RequestException`, which the worker converts to an
empty result list).  Shapely predicates on one returned item are recorded as
fields of the item. -/

/-- One Nominatim search result item, together with the outcome of every
operation `_fetch_for_syn` and the merge loop perform on it.
`gjTruthy` is the truthiness of `it.get("geojson")`; `gjType` its `type`
field; `shapeOk` whether `shapely.geometry.shape(gj)` succeeds; `coversOk`
the outcome of `city_shape.covers(small_geom)` (`none` when it raises);
`wkbHex` the value of `small_geom.wkb_hex` (`none` when it raises);
`jsonFingerprint` the canonical-JSON dump of the feature geometry (`none`
when it raises); `area` the value `float(small_geom.area)` used as ranking
key; `tag` identifies the provenance payload of the built feature. -/
structure SubItem where
  gjTruthy : Bool
  gjType : String
  shapeOk : Bool
  coversOk : Option Bool
  wkbHex : Option String
  jsonFingerprint : Option String
  area : Rat
  tag : Nat
deriving DecidableEq

/-- The per-item filter of `_fetch_for_syn` (geo.py lines 147-172): keep an
item iff its geojson is present, of Polygon or MultiPolygon type, its shape
parses, and the boundary `covers` test succeeds and holds. -/
def keepsItem (it : SubItem) : Bool :=
  it.gjTruthy && (it.gjType == "Polygon" || it.gjType == "MultiPolygon")
    && it.shapeOk && (it.coversOk == some true)

/-- `_fetch_for_syn` (geo.py lines 125-173) as a function of the network
response for one keyword: a failed request (`none`, the caught
`requests.RequestException`) yields zero results, a successful one yields
the items surviving the filter. -/
def fetch_for_syn (resp : Option (List SubItem)) : List SubItem :=
  match resp with
  | none => []
  | some items => items.filter keepsItem

/-- The canonical geometry fingerprint of the merge loop (geo.py lines
195-201): `wkb_hex` when available, otherwise the canonical-JSON dump;
`none` when both raise (the item is then skipped). -/
def geomKey (it : SubItem) : Option String :=
  match it.wkbHex with
  | some k => some k
  | none => it.jsonFingerprint

/-- One step of the merge/deduplication loop (geo.py lines 194-206): state is
the `seen_geoms` fingerprint set (as a list) and the accumulated
`(area, feature)` candidates in arrival order. -/
def dedupStep (acc : List String × List SubItem) (it : SubItem) : List String × List SubItem :=
  match geomKey it with
  | none => acc
  | some k => if k ∈ acc.1 then acc else (k :: acc.1, acc.2 ++ [it])

/-- The whole merge loop: fold the deduplication step over all filtered
per-keyword results in completion order (geo.py lines 180-206). -/
def collectCandidates (results : List (List SubItem)) : List SubItem :=
  (results.join.foldl dedupStep ([], [])).2

/-- Area-descending comparison used by `sorted(candidates, key=lambda x:
x[0], reverse=True)` (geo.py line 222). -/
def areaDesc (a b : SubItem) : Prop :=
  b.area ≤ a.area

instance : DecidableRel areaDesc :=
  fun a b => inferInstanceAs (Decidable (b.area ≤ a.area))

instance : IsTotal SubItem areaDesc :=
  ⟨fun a b => le_total b.area a.area⟩

instance : IsTrans SubItem areaDesc :=
  ⟨fun _ _ _ h1 h2 => le_trans h2 h1⟩

/-- The discovery pipeline of `fetch_city_geojson` on a cache miss (geo.py
lines 102-227): filter each keyword response, merge with global
deduplication, fail with `NoCandidates` (the `ValueError` at line 219) when
nothing survives, else sort by area descending (a stable sort, as Python's)
and truncate to the first 500. -/
def fetch_city_geojson_discovery (inputs : List (Option (List SubItem))) :
    Except String (List SubItem) :=
  let cands := collectCandidates (inputs.map fetch_for_syn)
  if cands.isEmpty then Except.error "NoCandidates"
  else Except.ok ((List.insertionSort areaDesc cands).take 500)

theorem dedupStep_mem (acc : List String × List SubItem) (it x : SubItem)
    (h : x ∈ (dedupStep acc it).2) : x ∈ acc.2 ∨ x = it := by
  unfold dedupStep at h
  rcases hk : geomKey it with _ | k <;> rw [hk] at h
  · exact Or.inl h
  · by_cases hmem : k ∈ acc.1
    · simp [hmem] at h
      exact Or.inl h
    · simp [hmem] at h
      rcases h with h | h
      · exact Or.inl h
      · exact Or.inr h

theorem foldl_dedup_mem (l : List SubItem) :
    ∀ acc x, x ∈ (l.foldl dedupStep acc).2 → x ∈ acc.2 ∨ x ∈ l := by
  induction l with
  | nil => intro acc x h; exact Or.inl h
  | cons a t ih =>
    intro acc x h
    rw [List.foldl_cons] at h
    rcases ih (dedupStep acc a) x h with h1 | h1
    · rcases dedupStep_mem acc a x h1 with h2 | h2
      · exact Or.inl h2
      · exact Or.inr (by simp [h2])
    · exact Or.inr (List.mem_cons_of_mem a h1)

/-- Invariant of the merge loop: every accumulated candidate has a
fingerprint recorded in the seen set, and accumulated fingerprints are
pairwise distinct. -/
def dedupInv (acc : List String × List SubItem) : Prop :=
  (∀ x ∈ acc.2, ∃ k, geomKey x = some k ∧ k ∈ acc.1)
    ∧ acc.2.Pairwise (fun a b => geomKey a ≠ geomKey b)

theorem dedupStep_inv (acc : List String × List SubItem) (it : SubItem)
    (h : dedupInv acc) : dedupInv (dedupStep acc it) := by
  unfold dedupStep
  rcases hk : geomKey it with _ | k
  · exact h
  · by_cases hmem : k ∈ acc.1
    · simpa [hmem] using h
    · simp only [hmem, if_false]
      constructor
      · intro x hx
        rcases List.mem_append.mp hx with hx1 | hx1
        · rcases h.1 x hx1 with ⟨kx, hkx, hkx2⟩
          exact ⟨kx, hkx, List.mem_cons_of_mem k hkx2⟩
        · rw [List.mem_singleton] at hx1
          subst hx1
          exact ⟨k, hk, List.mem_cons_self k acc.1⟩
      · rw [List.pairwise_append]
        refine ⟨h.2, List.pairwise_singleton _ it, ?_⟩
        intro a ha b hb
        rw [List.mem_singleton] at hb
        subst hb
        rcases h.1 a ha with ⟨ka, hka, hka2⟩
        rw [hka, hk]
        intro hcontra
        rw [Option.some.injEq] at hcontra
        subst hcontra
        exact hmem hka2

theorem foldl_dedup_inv (l : List SubItem) :
    ∀ acc, dedupInv acc → dedupInv (l.foldl dedupStep acc) := by
  induction l with
  | nil => intro acc h; exact h
  | cons a t ih =>
    intro acc h
    rw [List.foldl_cons]
    exact ih (dedupStep acc a) (dedupStep_inv acc a h)

theorem collectCandidates_mem (results : List (List SubItem)) (x : SubItem)
    (h : x ∈ collectCandidates results) : x ∈ results.join := by
  rcases foldl_dedup_mem results.join ([], []) x h with h1 | h1
  · simp at h1
  · exact h1

theorem collectCandidates_pairwise (results : List (List SubItem)) :
    (collectCandidates results).Pairwise (fun a b => geomKey a ≠ geomKey b) :=
  (foldl_dedup_inv results.join ([], []) ⟨by simp, List.Pairwise.nil⟩).2

theorem discovery_ok_mem_keeps (inputs : List (Option (List SubItem))) (out : List SubItem)
    (h : fetch_city_geojson_discovery inputs = Except.ok out) :
    ∀ e ∈ out, keepsItem e = true := by
  intro e he
  unfold fetch_city_geojson_discovery at h
  by_cases hempty : (collectCandidates (inputs.map fetch_for_syn)).isEmpty
  · simp [hempty] at h
  · simp only [hempty, Bool.false_eq_true, if_false, Except.ok.injEq] at h
    subst h
    have h1 : e ∈ List.insertionSort areaDesc (collectCandidates (inputs.map fetch_for_syn)) :=
      (List.take_sublist 500 _).subset he
    have h2 : e ∈ collectCandidates (inputs.map fetch_for_syn) :=
      (List.perm_insertionSort areaDesc _).subset h1
    have h3 := collectCandidates_mem _ e h2
    rw [List.mem_join] at h3
    rcases h3 with ⟨l, hl, hel⟩
    rw [List.mem_map] at hl
    rcases hl with ⟨resp, _, hresp⟩
    subst hresp
    rcases resp with _ | items
    · simp [fetch_for_syn] at hel
    · exact (List.mem_filter.mp hel).2

/-- C2: whenever the discovery pipeline succeeds, every returned candidate
passed the containment filter of `_fetch_for_syn`: the boundary `covers`
test succeeded and returned true for its geometry (boundary touching
allowed); no candidate extending outside the boundary is ever returned. -/
theorem fetch_city_geojson_discovery_covers (inputs : List (Option (List SubItem)))
    (out : List SubItem) (h : fetch_city_geojson_discovery inputs = Except.ok out) :
    ∀ e ∈ out, e.coversOk = some true := by
  intro e he
  have hk := discovery_ok_mem_keeps inputs out h e he
  unfold keepsItem at hk
  simp only [Bool.and_eq_true, beq_iff_eq] at hk
  exact hk.2

/-- C3: whenever the discovery pipeline succeeds, no two returned candidates
share a canonical geometry fingerprint: deduplication is global across all
keyword queries. -/
theorem fetch_city_geojson_discovery_dedup (inputs : List (Option (List SubItem)))
    (out : List SubItem) (h : fetch_city_geojson_discovery inputs = Except.ok out) :
    out.Pairwise (fun a b => geomKey a ≠ geomKey b) := by
  unfold fetch_city_geojson_discovery at h
  by_cases hempty : (collectCandidates (inputs.map fetch_for_syn)).isEmpty
  · simp [hempty] at h
  · simp only [hempty, Bool.false_eq_true, if_false, Except.ok.injEq] at h
    subst h
    have hsym : ∀ {x y : SubItem}, geomKey x ≠ geomKey y → geomKey y ≠ geomKey x :=
      fun hxy => fun he => hxy he.symm
    have hp : (List.insertionSort areaDesc
        (collectCandidates (inputs.map fetch_for_syn))).Pairwise
        (fun a b => geomKey a ≠ geomKey b) :=
      ((List.perm_insertionSort areaDesc _).pairwise_iff hsym).mpr
        (collectCandidates_pairwise _)
    exact hp.sublist (List.take_sublist 500 _)

/-- C4: whenever the discovery pipeline succeeds, the returned candidate
sequence is sorted by area in non-increasing order and has length at most
500. -/
theorem fetch_city_geojson_discovery_ranked (inputs : List (Option (List SubItem)))
    (out : List SubItem) (h : fetch_city_geojson_discovery inputs = Except.ok out) :
    out.Sorted areaDesc ∧ out.length ≤ 500 := by
  unfold fetch_city_geojson_discovery at h
  by_cases hempty : (collectCandidates (inputs.map fetch_for_syn)).isEmpty
  · simp [hempty] at h
  · simp only [hempty, Bool.false_eq_true, if_false, Except.ok.injEq] at h
    subst h
    constructor
    · exact (List.sorted_insertionSort areaDesc _).sublist (List.take_sublist 500 _)
    · calc (List.take 500 (List.insertionSort areaDesc _)).length
          = min 500 (List.insertionSort areaDesc _).length := by
            rw [List.length_take]
        _ ≤ 500 := min_le_left _ _

/-- A Polygon candidate with fingerprint k1 and area 5. -/
def itemA : SubItem :=
  { gjTruthy := true, gjType := "Polygon", shapeOk := true, coversOk := some true,
    wkbHex := some "k1", jsonFingerprint := none, area := 5, tag := 1 }

/-- A MultiPolygon candidate with fingerprint k2 and area 9. -/
def itemB : SubItem :=
  { gjTruthy := true, gjType := "MultiPolygon", shapeOk := true, coversOk := some true,
    wkbHex := some "k2", jsonFingerprint := none, area := 9, tag := 2 }

/-- A different keyword's result carrying the same geometry fingerprint k1
as `itemA`. -/
def itemA2 : SubItem :=
  { gjTruthy := true, gjType := "Polygon", shapeOk := true, coversOk := some true,
    wkbHex := some "k1", jsonFingerprint := none, area := 5, tag := 3 }

/-- A result whose geojson type is not Polygon/MultiPolygon: filtered out. -/
def itemPoint : SubItem :=
  { gjTruthy := true, gjType := "Point", shapeOk := true, coversOk := some true,
    wkbHex := some "k3", jsonFingerprint := none, area := 1, tag := 4 }

/-- A result rejected by the boundary containment test. -/
def itemOutside : SubItem :=
  { gjTruthy := true, gjType := "Polygon", shapeOk := true, coversOk := some false,
    wkbHex := some "k4", jsonFingerprint := none, area := 7, tag := 5 }

/-- Three keyword responses: two successful ones with overlapping geometry
results, and one failed request. -/
def discoveryInputs0 : List (Option (List SubItem)) :=
  [some [itemA, itemPoint, itemOutside], some [itemA2, itemB], none]

theorem fetch_city_geojson_discovery_covers_witness :
    itemB.coversOk = some true ∧ itemA.coversOk = some true :=
  ⟨fetch_city_geojson_discovery_covers discoveryInputs0 [itemB, itemA] rfl itemB (by simp),
    fetch_city_geojson_discovery_covers discoveryInputs0 [itemB, itemA] rfl itemA (by simp)⟩

theorem fetch_city_geojson_discovery_dedup_witness :
    List.Pairwise (fun a b => geomKey a ≠ geomKey b) [itemB, itemA] :=
  fetch_city_geojson_discovery_dedup discoveryInputs0 [itemB, itemA] rfl

theorem fetch_city_geojson_discovery_ranked_witness :
    List.Sorted areaDesc [itemB, itemA] ∧ ([itemB, itemA] : List SubItem).length ≤ 500 :=
  fetch_city_geojson_discovery_ranked discoveryInputs0 [itemB, itemA] rfl

/-! ## On-disk candidate cache (`app/geo.py`, lines 230-312)

`save_city_small_polygons_cache` writes one JSON FeatureCollection file per
place key; `load_city_small_polygons_cache` reads one file back into the
in-memory cache; `load_all_city_caches_from_dir` bulk-loads a directory.
The file system is modelled as an association list from file path to parsed
file content; `json.dump` of a feature collection followed by `json.load`
reproduces the same document, so the disk stores documents directly. -/

/-- One cached feature: its geometry payload (the serialized `geometry`
member, `none` for a null/absent geometry) and its provenance `properties`
dictionary. -/
structure CFeat where
  geometry : Option String
  properties : List (String × String)
deriving DecidableEq

/-- One entry of a file's `features` array: `good f` is an object from which
`geojson.Feature(geometry=..., properties=...)` is rebuilt as `f`; `bad` is
an entry whose rebuild raises (e.g. a non-object), caught and skipped by the
per-feature `try/except`. -/
inductive FeatEntry where
  | bad : FeatEntry
  | good : CFeat → FeatEntry
deriving DecidableEq

/-- A parsed cache file: `malformed` when `json.load` raises, `notDict` when
the document is not a JSON object, `dict dtype features` an object with its
`type` member and `features` array (`data.get("features", [])` defaults to
the empty array). -/
inductive Doc where
  | malformed : Doc
  | notDict : Doc
  | dict : Option String → List FeatEntry → Doc
deriving DecidableEq

/-- The features a load pass extracts from a document (geo.py lines 260-267):
nothing unless the document is an object with `type == "FeatureCollection"`,
else every entry whose Feature rebuild succeeds, in file order. -/
def docGoodFeatures (d : Doc) : List CFeat :=
  match d with
  | Doc.dict dtype feats =>
    if dtype = some "FeatureCollection" then
      feats.filterMap (fun e => match e with | FeatEntry.bad => none | FeatEntry.good f => some f)
    else []
  | _ => []

/-- The file system: first-match association from file path to content. -/
def Disk : Type := List (String × Doc)

/-- The in-memory `_CITY_SMALL_POLYGONS_CACHE`: first-match association from
cache key to feature list. -/
def MemCache : Type := List (String × List CFeat)

/-- The path `os.path.join(cache_dir, f"{cache_key}.geojson")`. -/
def cacheFilePath (cacheDir cacheKey : String) : String :=
  cacheDir ++ "/" ++ cacheKey ++ ".geojson"

/-- `save_city_small_polygons_cache` (geo.py lines 230-247): dump the
FeatureCollection of `features` to `{cache_dir}/{cache_key}.geojson`
(overwriting), returning the updated disk and the file path. -/
def save_city_small_polygons_cache (disk : Disk) (cacheDir city : String)
    (country : Option String) (features : List CFeat) : Disk × String :=
  let cacheKey := city_cache_key city country
  let filepath := cacheFilePath cacheDir cacheKey
  ((filepath, Doc.dict (some "FeatureCollection") (features.map FeatEntry.good)) :: disk,
    filepath)

/-- The features found on disk for a path: empty when the file is absent,
else what a load pass extracts from its content. -/
def diskGoodFeatures (disk : Disk) (filepath : String) : List CFeat :=
  match List.lookup filepath disk with
  | none => []
  | some d => docGoodFeatures d

/-- `load_city_small_polygons_cache` (geo.py lines 250-274): read the file
for the place key; on a missing file, an unreadable file, a non
FeatureCollection document or an empty rebuilt feature list, return False
with the cache unchanged; otherwise install the full rebuilt list under the
key and return True. -/
def load_city_small_polygons_cache (disk : Disk) (cache : MemCache)
    (cacheDir city : String) (country : Option String) : Bool × MemCache :=
  let cacheKey := city_cache_key city country
  let filepath := cacheFilePath cacheDir cacheKey
  let feats := diskGoodFeatures disk filepath
  if feats.isEmpty then (false, cache) else (true, (cacheKey, feats) :: cache)

/-- Strip the `.geojson` suffix from a directory entry name (geo.py lines
285, 302): `none` when the name does not end in `.geojson` (the entry is
skipped), else the derived cache key `name[:-8]`. -/
def stripGeojsonExt (name : List Char) : Option (List Char) :=
  if List.isSuffixOf (String.data ".geojson") name then
    some (name.take (name.length - 8))
  else none

/-- One directory entry of `load_all_city_caches_from_dir` (geo.py lines
284-307): skip names without the `.geojson` suffix; skip files that are
unreadable, not FeatureCollections or rebuild to zero features; otherwise
install the full rebuilt list under the filename-derived key and count it. -/
def loadAllStep (acc : Nat × MemCache) (file : List Char × Doc) : Nat × MemCache :=
  match stripGeojsonExt file.1 with
  | none => acc
  | some key =>
    let feats := docGoodFeatures file.2
    if feats.isEmpty then acc else (acc.1 + 1, (String.mk key, feats) :: acc.2)

/-- `load_all_city_caches_from_dir` (geo.py lines 277-312): fold the per-file
step over the directory listing, returning the number of files loaded and
the updated cache. -/
def load_all_city_caches_from_dir (files : List (List Char × Doc)) (cache : MemCache) :
    Nat × MemCache :=
  files.foldl loadAllStep (0, cache)

theorem docGoodFeatures_save (features : List CFeat) :
    docGoodFeatures (Doc.dict (some "FeatureCollection") (features.map FeatEntry.good))
      = features := by
  simp only [docGoodFeatures, if_pos rfl, List.filterMap_map]
  have hcomp : ((fun e => match e with
      | FeatEntry.bad => none
      | FeatEntry.good f => some f) ∘ FeatEntry.good) = Option.some := rfl
  rw [hcomp, List.filterMap_some]
  simp

/-- C6 counterexample: the round trip fails for the empty candidate list.
Saving `areas = []` for city "x" on an empty disk and then loading it back
returns False and leaves the empty in-memory cache without an entry, so the
load neither succeeds nor reconstructs `[]`. -/
theorem cache_roundtrip_empty_counterexample :
    load_city_small_polygons_cache
        (save_city_small_polygons_cache [] "d" "x" none []).1 [] "d" "x" none
      = (false, [])
    ∧ List.lookup (city_cache_key "x" none)
        (load_city_small_polygons_cache
          (save_city_small_polygons_cache [] "d" "x" none []).1 [] "d" "x" none).2
      = none := by
  constructor
  · rfl
  · rfl

/-- C6 (amended to non-empty candidate lists): for every place, cache
directory, prior disk and prior in-memory cache, saving a non-empty
candidate list and loading it back succeeds, reconstructs exactly the saved
list (geometry and provenance), and installs it in the in-memory cache under
the place key. -/
theorem cache_roundtrip_spec (disk : Disk) (cache : MemCache) (cacheDir city : String)
    (country : Option String) (features : List CFeat) (h : features ≠ []) :
    load_city_small_polygons_cache
        (save_city_small_polygons_cache disk cacheDir city country features).1
        cache cacheDir city country
      = (true, (city_cache_key city country, features) :: cache)
    ∧ List.lookup (city_cache_key city country)
        (load_city_small_polygons_cache
          (save_city_small_polygons_cache disk cacheDir city country features).1
          cache cacheDir city country).2
      = some features := by
  have hdisk : diskGoodFeatures
      (save_city_small_polygons_cache disk cacheDir city country features).1
      (cacheFilePath cacheDir (city_cache_key city country)) = features := by
    simp [save_city_small_polygons_cache, diskGoodFeatures, List.lookup,
      docGoodFeatures_save]
  have hne : features.isEmpty = false := by
    rcases features with _ | ⟨a, t⟩
    · exact absurd rfl h
    · rfl
  constructor
  · simp [load_city_small_polygons_cache, hdisk, hne]
  · simp [load_city_small_polygons_cache, hdisk, hne, List.lookup]

theorem cache_roundtrip_spec_witness :
    ([{ geometry := some "g1", properties := [("display_name", "dt")] }] : List CFeat) ≠ []
    ∧ (load_city_small_polygons_cache
          (save_city_small_polygons_cache [] "cache" "Paris" (some "France")
            [{ geometry := some "g1", properties := [("display_name", "dt")] }]).1
          [] "cache" "Paris" (some "France")
        = (true, (city_cache_key "Paris" (some "France"),
            [{ geometry := some "g1", properties := [("display_name", "dt")] }]) :: [])
      ∧ List.lookup (city_cache_key "Paris" (some "France"))
          (load_city_small_polygons_cache
            (save_city_small_polygons_cache [] "cache" "Paris" (some "France")
              [{ geometry := some "g1", properties := [("display_name", "dt")] }]).1
            [] "cache" "Paris" (some "France")).2
        = some [{ geometry := some "g1", properties := [("display_name", "dt")] }]) :=
  ⟨by decide, cache_roundtrip_spec [] [] "cache" "Paris" (some "France")
    [{ geometry := some "g1", properties := [("display_name", "dt")] }] (by decide)⟩

/-- C8: loading a cache file is all-or-nothing per file.  Single-file load
either installs the complete feature list rebuilt from the file under its
place key (and that list is non-empty), or returns False leaving the cache
unchanged; one bulk-load step either installs the complete rebuilt list
under the filename-derived key, or leaves the accumulator unchanged; and a
malformed or non-FeatureCollection file rebuilds to zero features, so it
never contributes a partial list. -/
theorem cache_load_all_or_nothing_spec (disk : Disk) (cache : MemCache)
    (cacheDir city : String) (country : Option String)
    (acc : Nat × MemCache) (file : List Char × Doc) :
    ((diskGoodFeatures disk (cacheFilePath cacheDir (city_cache_key city country)) ≠ []
        ∧ load_city_small_polygons_cache disk cache cacheDir city country
          = (true, (city_cache_key city country,
              diskGoodFeatures disk
                (cacheFilePath cacheDir (city_cache_key city country))) :: cache))
      ∨ load_city_small_polygons_cache disk cache cacheDir city country = (false, cache))
    ∧ ((∃ key2, stripGeojsonExt file.1 = some key2
          ∧ docGoodFeatures file.2 ≠ []
          ∧ loadAllStep acc file
            = (acc.1 + 1, (String.mk key2, docGoodFeatures file.2) :: acc.2))
      ∨ loadAllStep acc file = acc)
    ∧ docGoodFeatures Doc.malformed = []
    ∧ docGoodFeatures Doc.notDict = [] := by
  refine ⟨?_, ?_, rfl, rfl⟩
  · by_cases hempty :
      (diskGoodFeatures disk (cacheFilePath cacheDir (city_cache_key city country))).isEmpty
    · right
      simp [load_city_small_polygons_cache, hempty]
    · left
      refine ⟨?_, ?_⟩
      · intro hcontra
        rw [List.isEmpty_iff] at hempty
        exact hempty hcontra
      · simp only [load_city_small_polygons_cache]
        rw [if_neg (by simpa using hempty)]
  · rcases hs : stripGeojsonExt file.1 with _ | key2
    · right
      simp [loadAllStep, hs]
    · by_cases hempty : (docGoodFeatures file.2).isEmpty
      · right
        simp [loadAllStep, hs, hempty]
      · left
        refine ⟨key2, rfl, ?_, ?_⟩
        · intro hcontra
          rw [List.isEmpty_iff] at hempty
          exact hempty hcontra
        · simp only [loadAllStep, hs]
          rw [if_neg (by simpa using hempty)]

/-- C10: the single-file load reports success exactly when at least one
feature was rebuilt from the file; in particular loading back the file saved
from an empty candidate list returns False and leaves the in-memory cache
unchanged, so an empty saved candidate list never loads back into the
cache. -/
theorem cache_load_requires_features_spec (disk : Disk) (cache : MemCache)
    (cacheDir city : String) (country : Option String) :
    load_city_small_polygons_cache
        (save_city_small_polygons_cache disk cacheDir city country []).1
        cache cacheDir city country
      = (false, cache)
    ∧ (load_city_small_polygons_cache disk cache cacheDir city country).1
      = !(diskGoodFeatures disk
          (cacheFilePath cacheDir (city_cache_key city country))).isEmpty := by
  constructor
  · have hdisk : diskGoodFeatures
        (save_city_small_polygons_cache disk cacheDir city country []).1
        (cacheFilePath cacheDir (city_cache_key city country)) = [] := by
      simp [save_city_small_polygons_cache, diskGoodFeatures, List.lookup, docGoodFeatures]
    simp [load_city_small_polygons_cache, hdisk]
  · by_cases hempty :
      (diskGoodFeatures disk (cacheFilePath cacheDir (city_cache_key city country))).isEmpty
    · simp [load_city_small_polygons_cache, hempty]
    · simp only [load_city_small_polygons_cache]
      rw [if_neg (by simpa using hempty)]
      simp [hempty]

/-! ## Boundary resolver (`app/geo.py`, `_fetch_city_full_geojson`, lines 315-355)

The geocoder response (after a successful transport round trip) is an input:
the parsed result list.  Each result records whether it carries a `geojson`
member and its descriptive fields. -/

/-- One Nominatim name-search result: presence and payload of the `geojson`
member plus the descriptive metadata copied into the returned feature. -/
structure GeoResult where
  hasGeojson : Bool
  geojsonVal : String
  displayName : Option String
  resType : Option String
  osmType : Option String
  osmId : Option Int
  classTag : Option String
deriving DecidableEq

/-- The error taxonomy of `_fetch_city_full_geojson`: the missing-city
`ValueError` (line 317), `NotFound` (line 340) and `NoGeometry`
(line 346). -/
inductive FetchCityError where
  | cityMissing : FetchCityError
  | notFound : FetchCityError
  | noGeometry : FetchCityError
deriving DecidableEq

/-- The feature returned on success (geo.py lines 349-355): the top result's
geometry with its descriptive metadata. -/
structure BoundaryFeature where
  geometry : String
  displayName : Option String
  resType : Option String
  osmType : Option String
  osmId : Option Int
  classTag : Option String
deriving DecidableEq

/-- `_fetch_city_full_geojson` (geo.py lines 315-355) as a function of the
parsed geocoder response: reject an empty city name, fail with `NotFound` on
zero results, fail with `NoGeometry` when the top-ranked result lacks the
`geojson` member, else return the top result's geometry and metadata. -/
def fetch_city_full_geojson (city : String) (results : List GeoResult) :
    Except FetchCityError BoundaryFeature :=
  if city = "" then Except.error FetchCityError.cityMissing
  else
    match results with
    | [] => Except.error FetchCityError.notFound
    | top :: _ =>
      if top.hasGeojson then
        Except.ok
          { geometry := top.geojsonVal, displayName := top.displayName,
            resType := top.resType, osmType := top.osmType, osmId := top.osmId,
            classTag := top.classTag }
      else Except.error FetchCityError.noGeometry

/-- C7: for a non-empty city query, boundary resolution fails with `NotFound`
exactly when the geocoder returned zero results, fails with `NoGeometry`
exactly when the top-ranked result lacks polygon geometry data (the
requested `geojson` member), and otherwise returns the top result's geometry
with its descriptive metadata. -/
theorem fetch_city_full_geojson_spec (city : String) (results : List GeoResult)
    (h : city ≠ "") :
    (fetch_city_full_geojson city results = Except.error FetchCityError.notFound
      ↔ results = [])
    ∧ (fetch_city_full_geojson city results = Except.error FetchCityError.noGeometry
      ↔ ∃ top rest, results = top :: rest ∧ top.hasGeojson = false)
    ∧ (∀ top rest, results = top :: rest → top.hasGeojson = true →
        fetch_city_full_geojson city results = Except.ok
          { geometry := top.geojsonVal, displayName := top.displayName,
            resType := top.resType, osmType := top.osmType, osmId := top.osmId,
            classTag := top.classTag }) := by
  refine ⟨?_, ?_, ?_⟩
  · constructor
    · intro heq
      rcases results with _ | ⟨top, rest⟩
      · rfl
      · by_cases hg : top.hasGeojson = true <;>
          simp [fetch_city_full_geojson, h, hg] at heq
    · intro heq
      subst heq
      simp [fetch_city_full_geojson, h]
  · constructor
    · intro heq
      rcases results with _ | ⟨top, rest⟩
      · simp [fetch_city_full_geojson, h] at heq
      · by_cases hg : top.hasGeojson = true
        · simp [fetch_city_full_geojson, h, hg] at heq
        · exact ⟨top, rest, rfl, by simpa using hg⟩
    · intro heq
      rcases heq with ⟨top, rest, hres, hg⟩
      subst hres
      simp [fetch_city_full_geojson, h, hg]
  · intro top rest hres hg
    subst hres
    simp [fetch_city_full_geojson, h, hg]

/-- A geocoder result carrying polygon geometry for the witness scenario. -/
def geoResult0 : GeoResult :=
  { hasGeojson := true, geojsonVal := "poly-shanghai",
    displayName := some "Shanghai, China", resType := some "administrative",
    osmType := some "relation", osmId := some 913067, classTag := some "boundary" }

theorem fetch_city_full_geojson_spec_witness :
    ("shanghai" : String) ≠ ""
    ∧ fetch_city_full_geojson "shanghai" [geoResult0] = Except.ok
        { geometry := geoResult0.geojsonVal, displayName := geoResult0.displayName,
          resType := geoResult0.resType, osmType := geoResult0.osmType,
          osmId := geoResult0.osmId, classTag := geoResult0.classTag } :=
  ⟨by decide,
    (fetch_city_full_geojson_spec "shanghai" [geoResult0] (by decide)).2.2 geoResult0 [] rfl rfl⟩

/-! ## Coverage search loop (`app/streetview.py`, lines 42-100)

The metadata endpoint is an input: `meta k` is the parsed JSON returned by
`street_view_metadata` on the k-th call (k = 1, 2, ...), modelled as a
string-valued JSON object.  The sampled point and effective radius of each
attempt are likewise input streams, since `random_point_in_polygon` and
`_estimate_radius_from_area` are exercised separately. -/

/-- A parsed metadata response: a JSON object as a field dictionary.  Python
`not metadata` is truth-tested as emptiness of the dictionary. -/
structure Metadata where
  fields : List (String × String)
deriving DecidableEq

/-- `metadata.get(k)`: first-match dictionary lookup. -/
def Metadata.get (m : Metadata) (k : String) : Option String :=
  List.lookup k m.fields

/-- Python truthiness of a `dict.get` result: present and non-empty. -/
def truthyField (v : Option String) : Bool :=
  match v with
  | none => false
  | some s => !(s.isEmpty)

/-- `is_metadata_acceptable` (streetview.py lines 42-50): reject an empty
response or any status other than "OK"; when optimising, additionally
require a truthy `date` or `image_date` field. -/
def is_metadata_acceptable (metadata : Metadata) (optimise : Bool) : Bool :=
  if metadata.fields.isEmpty || !(metadata.get "status" == some "OK") then false
  else if optimise && !(truthyField (metadata.get "date"))
      && !(truthyField (metadata.get "image_date")) then false
  else true

/-- Outcome of `find_streetview_random`: the success dictionary (streetview.py
lines 92-98) with the attempt count, point, radius and metadata, or the
final `StreetViewError` (line 100) carrying `last_metadata`, whose `status`
field the error message reports. -/
inductive SVResult where
  | success : Nat → Rat → Rat → Nat → Metadata → SVResult
  | exhausted : Option Metadata → SVResult
deriving DecidableEq

/-- The `while attempt < max_attempts` loop of `find_streetview_random`
(streetview.py lines 80-98): the first argument is the number of remaining
iterations, the second the current value of `attempt`, the third
`last_metadata`.  `pts k` and `rad k` are the point and effective radius of
the k-th attempt, `meta k` its metadata response. -/
def svLoop (pts : Nat → Rat × Rat) (rad : Nat → Nat) (meta : Nat → Metadata)
    (optimise : Bool) : Nat → Nat → Option Metadata → SVResult
  | 0, _, last => SVResult.exhausted last
  | n + 1, attempt, _ =>
    let a := attempt + 1
    let m := meta a
    if is_metadata_acceptable m optimise then
      SVResult.success a (pts a).1 (pts a).2 (rad a) m
    else svLoop pts rad meta optimise n a (some m)

/-- `find_streetview_random` (streetview.py lines 63-100) restricted to its
retry loop: run up to `maxAttempts` sample-and-query iterations starting
from `attempt = 0` with no last metadata. -/
def find_streetview_random (pts : Nat → Rat × Rat) (rad : Nat → Nat)
    (meta : Nat → Metadata) (optimise : Bool) (maxAttempts : Nat) : SVResult :=
  svLoop pts rad meta optimise maxAttempts 0 none

theorem svLoop_exhausts (pts : Nat → Rat × Rat) (rad : Nat → Nat) (meta : Nat → Metadata)
    (optimise : Bool) :
    ∀ n attempt last, 1 ≤ n →
      (∀ k, k ≤ attempt + n → attempt < k → is_metadata_acceptable (meta k) optimise = false) →
      svLoop pts rad meta optimise n attempt last
        = SVResult.exhausted (some (meta (attempt + n))) := by
  intro n
  induction n with
  | zero => intro attempt last h1 _; omega
  | succ m ih =>
    intro attempt last _ hall
    have hfirst : is_metadata_acceptable (meta (attempt + 1)) optimise = false :=
      hall (attempt + 1) (by omega) (by omega)
    rcases Nat.eq_zero_or_pos m with hm | hm
    · subst hm
      simp [svLoop, hfirst]
    · have hrec := ih (attempt + 1) (some (meta (attempt + 1))) hm
        (fun k hk1 hk2 => hall k (by omega) (by omega))
      simp only [svLoop, hfirst, Bool.false_eq_true, if_false]
      rw [hrec]
      have harith : attempt + 1 + m = attempt + (m + 1) := by omega
      rw [harith]

theorem svLoop_succeeds (pts : Nat → Rat × Rat) (rad : Nat → Nat) (meta : Nat → Metadata)
    (optimise : Bool) :
    ∀ n attempt last k, attempt < k → k ≤ attempt + n →
      (∀ j, j < k → attempt < j → is_metadata_acceptable (meta j) optimise = false) →
      is_metadata_acceptable (meta k) optimise = true →
      svLoop pts rad meta optimise n attempt last
        = SVResult.success k (pts k).1 (pts k).2 (rad k) (meta k) := by
  intro n
  induction n with
  | zero => intro attempt last k h1 h2 _ _; omega
  | succ m ih =>
    intro attempt last k h1 h2 hbefore hk
    by_cases hfirst : k = attempt + 1
    · subst hfirst
      simp [svLoop, hk]
    · have hrej : is_metadata_acceptable (meta (attempt + 1)) optimise = false :=
        hbefore (attempt + 1) (by omega) (by omega)
      simp only [svLoop, hrej, Bool.false_eq_true, if_false]
      exact ih (attempt + 1) (some (meta (attempt + 1))) k (by omega) (by omega)
        (fun j hj1 hj2 => hbefore j (by omega) (by omega)) hk

/-- C5: for every attempt budget n >= 1, a metadata lookup that never
satisfies the acceptance predicate makes the coverage search loop perform
exactly n sample-and-query iterations and fail with `CoverageExhausted`
carrying the n-th (last) attempt's metadata, whose status the error reports;
and when the k-th call (k <= n) is the first to satisfy the predicate, the
loop returns success with attempt count k and that call's point, radius and
metadata. -/
theorem find_streetview_random_spec (pts : Nat → Rat × Rat) (rad : Nat → Nat)
    (meta : Nat → Metadata) (optimise : Bool) (n : Nat) (h : 1 ≤ n) :
    ((∀ k, k ≤ n → 1 ≤ k → is_metadata_acceptable (meta k) optimise = false) →
      find_streetview_random pts rad meta optimise n
        = SVResult.exhausted (some (meta n)))
    ∧ (∀ k, k ≤ n → 1 ≤ k →
        (∀ j, j < k → 1 ≤ j → is_metadata_acceptable (meta j) optimise = false) →
        is_metadata_acceptable (meta k) optimise = true →
        find_streetview_random pts rad meta optimise n
          = SVResult.success k (pts k).1 (pts k).2 (rad k) (meta k)) := by
  constructor
  · intro hall
    have := svLoop_exhausts pts rad meta optimise n 0 none h
      (fun k hk1 hk2 => hall k (by omega) (by omega))
    simpa [find_streetview_random] using this
  · intro k hk1 hk2 hbefore hk
    exact svLoop_succeeds pts rad meta optimise n 0 none k (by omega) (by omega)
      (fun j hj1 hj2 => hbefore j (by omega) (by omega)) hk

/-- A metadata stub that always reports zero results. -/
def metaNeverFound (_ : Nat) : Metadata :=
  { fields := [("status", "ZERO_RESULTS")] }

/-- A metadata stub whose third call is the first acceptable one. -/
def metaThirdCall (k : Nat) : Metadata :=
  if k = 3 then { fields := [("status", "OK"), ("date", "2020-01")] }
  else { fields := [("status", "ZERO_RESULTS")] }

/-- A concrete point stream for the coverage loop witness. -/
def svPts (k : Nat) : Rat × Rat :=
  (k, k + 1)

/-- A concrete radius stream for the coverage loop witness. -/
def svRad (_ : Nat) : Nat :=
  50

theorem find_streetview_random_spec_witness :
    (1 ≤ 5
      ∧ (∀ k, k ≤ 5 → 1 ≤ k → is_metadata_acceptable (metaNeverFound k) true = false)
      ∧ find_streetview_random svPts svRad metaNeverFound true 5
        = SVResult.exhausted (some (metaNeverFound 5)))
    ∧ (1 ≤ 5
      ∧ (∀ j, j < 3 → 1 ≤ j → is_metadata_acceptable (metaThirdCall j) true = false)
      ∧ is_metadata_acceptable (metaThirdCall 3) true = true
      ∧ find_streetview_random svPts svRad metaThirdCall true 5
        = SVResult.success 3 (svPts 3).1 (svPts 3).2 (svRad 3) (metaThirdCall 3)) :=
  ⟨⟨by decide, by decide,
    (find_streetview_random_spec svPts svRad metaNeverFound true 5 (by decide)).1
      (by decide)⟩,
    ⟨by decide, by decide, by decide,
      (find_streetview_random_spec svPts svRad metaThirdCall true 5 (by decide)).2 3
        (by decide) (by decide) (by decide) (by decide)⟩⟩
